import Mathlib

/-!
Shallow embedding of the sglang client-side protocol layer
(`python/sglang/lang/backend/runtime_endpoint.py`) and the bounded test
runner (`python/sglang/test/test_utils.py`).

Modelling conventions:
- Python strings that participate in slicing/length arithmetic (program
  text, streamed snapshots) are `List Char`; opaque strings (URLs, error
  messages) are `String`.
- Python floats (temperature, log-probabilities) are modelled as `ℚ`.
- Network effects are made explicit: each operation returns the list of
  HTTP requests it issued together with an `Except` result.  The server's
  responses are passed in as arguments (the transport is an external
  collaborator).
- Python exceptions are an `Error` type.  Following the spec's taxonomy,
  caller-contract `assert` failures are `UsageError`, the
  `RuntimeError(res.json())` raised by `_assert_success` on a non-200
  status is `ProtocolError`, and attribute lookups that miss are
  `AttributeError`.
-/

namespace SGLangClient

/-- Server-reported per-completion metadata (`meta_info` in responses).
Log-probabilities are floats in the source, modelled as `ℚ`. -/
structure MetaInfo where
  prompt_tokens : Nat
  completion_tokens : Nat
  normalized_prompt_logprob : ℚ
  input_token_logprobs : List ℚ
  output_token_logprobs : List ℚ
deriving DecidableEq, Repr

/-- Decoded JSON body of a unary response: either a single
`{text, meta_info}` object, a list of such objects (batched input), or
some other JSON value (e.g. an error detail). -/
inductive RespBody where
  | obj (text : List Char) (meta : MetaInfo)
  | arr (items : List (List Char × MetaInfo))
  | raw (s : String)
deriving DecidableEq, Repr

/-- Python exceptions raised by the client, named by the spec's taxonomy:
`UsageError` for caller-contract `assert` failures, `ProtocolError` for
the `RuntimeError(res.json())` of `_assert_success`, `AttributeError`
for attribute lookups that miss, `ValueError`/`IndexError`/`TypeError`
for the corresponding Python built-ins. -/
inductive Error where
  | UsageError (msg : String)
  | ProtocolError (body : RespBody)
  | AttributeError (name : String)
  | ValueError (msg : String)
  | IndexError
  | TypeError
deriving DecidableEq, Repr

/-- A unary HTTP response: status code plus decoded JSON body. -/
structure HttpResponse where
  status_code : Nat
  body : RespBody
deriving DecidableEq, Repr

/-- The `text` field of a generate payload: a single string or a list of
strings (batched request). -/
inductive TextField where
  | single (t : List Char)
  | batch (ts : List (List Char))
deriving DecidableEq, Repr

/-- The `sampling_params` sub-object of a generate payload.  A `none`
field is omitted from the wire payload (absence is meaningful). -/
structure SamplingParamsWire where
  max_new_tokens : Option Nat := none
  temperature : Option ℚ := none
  stop : Option (List (List Char)) := none
  dtype : Option String := none
  skip_special_tokens : Option Bool := none
  spaces_between_special_tokens : Option Bool := none
deriving DecidableEq, Repr

/-- A `/generate` wire payload.  `none` optional fields are omitted from
the wire payload rather than sent as null. -/
structure GenerateData where
  text : TextField
  sampling_params : SamplingParamsWire
  return_logprob : Option Bool := none
  logprob_start_len : Option Int := none
  top_logprobs_num : Option Nat := none
  return_text_in_logprobs : Option Bool := none
  image_data : Option (List Char) := none
  stream : Option Bool := none
deriving DecidableEq, Repr

/-- Body of an issued HTTP request. -/
inductive ReqBody where
  | generate (d : GenerateData)
  | concate (src_rids : List (List Char)) (dst_rid : List Char)
  | plain
deriving DecidableEq, Repr

/-- One issued HTTP request: full URL (base address plus path) and body. -/
structure Request where
  url : String
  body : ReqBody
deriving DecidableEq, Repr

/-- Program state owned by the caller (`StreamExecutor`): accumulated
prompt text `text_` and the list of attached images `images_`, each a
(name, data) pair. -/
structure ProgramState where
  text_ : List Char
  images_ : List (List Char × List Char)
deriving DecidableEq, Repr

/-- The session object built by `RuntimeEndpoint.__init__`: endpoint
configuration captured at construction. -/
structure RuntimeEndpoint where
  base_url : String
  api_key : Option String := none
  verify : Option String := none
  model_path : List Char := []
  chat_template : String := ""
deriving DecidableEq, Repr

/-- Attribute names assigned on a `RuntimeEndpoint` instance during
construction.  From `RuntimeEndpoint.__init__` in the source
(`support_concate_and_append`, `base_url`, `api_key`, `verify`,
`model_info`, `chat_template`).  Modelled from the spec: the
`BaseBackend.__init__` called via `super()` is not part of the shown
sources; per the spec the session holds only the endpoint configuration
(base address, optional credential, TLS-verification mode) and the
server-reported model metadata, so it assigns no further credential
attribute. -/
def runtime_endpoint_attrs : List String :=
  ["support_concate_and_append", "base_url", "api_key", "verify",
   "model_info", "chat_template"]

/-- Embeds `_assert_success`: raise `RuntimeError(res.json())` — a
`ProtocolError` carrying the decoded body — when the status is not 200. -/
def _assert_success (res : HttpResponse) : Except Error Unit :=
  if res.status_code = 200 then .ok () else .error (.ProtocolError res.body)

/-- Embeds `_add_images`: if the state carries images, assert there is
exactly one (`UsageError` otherwise, per the spec's taxonomy for `assert`
contract violations) and embed its data under `image_data`. -/
def _add_images (s : ProgramState) (data : GenerateData) :
    Except Error GenerateData :=
  match s.images_ with
  | [] => .ok data
  | [img] => .ok { data with image_data := some img.2 }
  | _ => .error (.UsageError "Only support one image.")

/-- Embeds `flush_cache`: the source reads `self.auth_token`, an
attribute never assigned during construction (the constructor assigns
`api_key`), so the attribute lookup is consulted against
`runtime_endpoint_attrs`; on a miss the call raises `AttributeError`
before any request is issued.  When the lookup would succeed, the call
issues one request to `/flush_cache` and asserts success. -/
def flush_cache (sess : RuntimeEndpoint) (res : HttpResponse) :
    List Request × Except Error Unit :=
  if "auth_token" ∈ runtime_endpoint_attrs then
    ([⟨sess.base_url ++ "/flush_cache", .plain⟩], _assert_success res)
  else
    ([], .error (.AttributeError "auth_token"))

/-- Embeds `get_server_args`: same structure as `flush_cache`, reading
the never-assigned `self.auth_token` before issuing the request. -/
def get_server_args (sess : RuntimeEndpoint) (res : HttpResponse) :
    List Request × Except Error RespBody :=
  if "auth_token" ∈ runtime_endpoint_attrs then
    ([⟨sess.base_url ++ "/get_server_args", .plain⟩],
      (_assert_success res).map fun _ => res.body)
  else
    ([], .error (.AttributeError "auth_token"))

/-- Embeds `get_model_name`: a pure local read of the cached metadata. -/
def get_model_name (sess : RuntimeEndpoint) : List Char :=
  sess.model_path

/-- Embeds `get_chat_template`: a pure local read. -/
def get_chat_template (sess : RuntimeEndpoint) : String :=
  sess.chat_template

/-- Embeds `concatenate_and_append`: one request to
`/concate_and_append_request` under the base address, carrying
`src_rids` and `dst_rid`, then `_assert_success`. -/
def concatenate_and_append (sess : RuntimeEndpoint)
    (src_rids : List (List Char)) (dst_rid : List Char)
    (res : HttpResponse) : List Request × Except Error Unit :=
  ([⟨sess.base_url ++ "/concate_and_append_request",
     .concate src_rids dst_rid⟩], _assert_success res)

/-- Maximum element of a list of rationals, `none` on the empty list. -/
def list_max : List ℚ → Option ℚ
  | [] => none
  | x :: xs =>
    match list_max xs with
    | none => some x
    | some m => some (max x m)

/-- Embeds `np.argmax` by its documented semantics (an external library
call): the index of the first occurrence of the maximum value; on an
empty sequence `np.argmax` raises `ValueError`, modelled as `none`. -/
def np_argmax (l : List ℚ) : Option Nat :=
  (list_max l).map fun m => l.indexOf m

/-- Result tuple returned by `select`. -/
structure SelectResult where
  decision : List Char
  normalized_prompt_logprobs : List ℚ
  input_token_logprobs : List (List ℚ)
  output_token_logprobs : List (List ℚ)
deriving DecidableEq, Repr

/-- The float literal `1e-5` of the temperature assert, modelled in `ℚ`. -/
def tempThreshold : ℚ := 1 / 100000

/-- Message of the temperature `assert` in `select`. -/
def tempAssertMsg : String := "assert temperature <= 1e-5"

/-- Embeds `select`: assert near-zero temperature; prime the prefix with
a zero-new-token request and read `prompt_tokens`; issue one batched
scoring request over `[s.text_ + c for c in choices]` with
`max_new_tokens = 0`, `return_logprob = True` and
`logprob_start_len = max(prompt_len - 2, 0)`; pick
`choices[np.argmax(normalized_prompt_logprobs)]`.  The two server
responses are passed in as `res1` (priming) and `res2` (scoring); the
first component of the result is the list of requests issued. -/
def select (sess : RuntimeEndpoint) (s : ProgramState)
    (choices : List (List Char)) (temperature : ℚ)
    (res1 res2 : HttpResponse) : List Request × Except Error SelectResult :=
  if temperature ≤ tempThreshold then
    let data1 : GenerateData :=
      { text := .single s.text_,
        sampling_params := { max_new_tokens := some 0 } }
    match _add_images s data1 with
    | .error e => ([], .error e)
    | .ok data1 =>
      let req1 : Request := ⟨sess.base_url ++ "/generate", .generate data1⟩
      match _assert_success res1 with
      | .error e => ([req1], .error e)
      | .ok _ =>
        match res1.body with
        | .obj _ meta1 =>
          let prompt_len := meta1.prompt_tokens
          let data2 : GenerateData :=
            { text := .batch (choices.map fun c => s.text_ ++ c),
              sampling_params := { max_new_tokens := some 0 },
              return_logprob := some true,
              logprob_start_len := some (max ((prompt_len : Int) - 2) 0) }
          match _add_images s data2 with
          | .error e => ([req1], .error e)
          | .ok data2 =>
            let req2 : Request := ⟨sess.base_url ++ "/generate", .generate data2⟩
            match _assert_success res2 with
            | .error e => ([req1, req2], .error e)
            | .ok _ =>
              match res2.body with
              | .arr items =>
                let normalized_prompt_logprobs :=
                  items.map fun r => r.2.normalized_prompt_logprob
                match np_argmax normalized_prompt_logprobs with
                | none =>
                  ([req1, req2],
                    .error (.ValueError
                      "attempt to get argmax of an empty sequence"))
                | some i =>
                  match choices[i]? with
                  | none => ([req1, req2], .error .IndexError)
                  | some decision =>
                    ([req1, req2],
                      .ok { decision := decision,
                            normalized_prompt_logprobs :=
                              normalized_prompt_logprobs,
                            input_token_logprobs :=
                              items.map fun r => r.2.input_token_logprobs,
                            output_token_logprobs :=
                              items.map fun r => r.2.output_token_logprobs })
              | _ => ([req1, req2], .error .TypeError)
        | _ => ([req1], .error .TypeError)
  else ([], .error (.UsageError tempAssertMsg))

/-- Process-wide output-formatting flags read from `global_config`. -/
structure GlobalConfig where
  skip_special_tokens_in_output : Bool
  spaces_between_special_tokens_in_out : Bool
deriving DecidableEq, Repr

/-- Caller-supplied sampling configuration (`SglSamplingParams`).  The
fields are the ones `generate`/`generate_stream` read. -/
structure SglSamplingParams where
  dtype : Option String := none
  max_new_tokens : Nat := 128
  temperature : ℚ := 1
  stop : List (List Char) := []
  return_logprob : Option Bool := none
  logprob_start_len : Option Int := none
  top_logprobs_num : Option Nat := none
  return_text_in_logprobs : Option Bool := none
deriving DecidableEq, Repr

/-- Modelled from the spec: `SglSamplingParams.to_srt_kwargs` lives in
`sglang/lang/ir.py`, which is not among the shown sources; per the
spec's wire-payload field list it contributes `temperature`,
`max_new_tokens` and `stop` to `sampling_params`. -/
def to_srt_kwargs (sp : SglSamplingParams) (base : SamplingParamsWire) :
    SamplingParamsWire :=
  { base with
    temperature := some sp.temperature,
    max_new_tokens := some sp.max_new_tokens,
    stop := some sp.stop }

/-- Shared payload construction of `generate`/`generate_stream`: dtype
dispatch (unset → omitted; `int` → discriminator field; anything else →
`RuntimeError`, a caller contract violation per the spec's taxonomy),
then the copy loop over the four optional logprob-instrumentation
fields, copying each only when set. -/
def build_generate_data (gc : GlobalConfig) (s : ProgramState)
    (sp : SglSamplingParams) : Except Error GenerateData :=
  let base : SamplingParamsWire :=
    { skip_special_tokens := some gc.skip_special_tokens_in_output,
      spaces_between_special_tokens :=
        some gc.spaces_between_special_tokens_in_out }
  match sp.dtype with
  | none =>
    .ok { text := .single s.text_,
          sampling_params := to_srt_kwargs sp base,
          return_logprob := sp.return_logprob,
          logprob_start_len := sp.logprob_start_len,
          top_logprobs_num := sp.top_logprobs_num,
          return_text_in_logprobs := sp.return_text_in_logprobs }
  | some d =>
    if d = "int" then
      .ok { text := .single s.text_,
            sampling_params := to_srt_kwargs sp { base with dtype := some "int" },
            return_logprob := sp.return_logprob,
            logprob_start_len := sp.logprob_start_len,
            top_logprobs_num := sp.top_logprobs_num,
            return_text_in_logprobs := sp.return_text_in_logprobs }
    else .error (.UsageError "Invalid dtype")

/-- Embeds `generate` (unary path): build the payload, attach the image
(at most one), issue one request, assert success, return
`(text, meta_info)`. -/
def generate (gc : GlobalConfig) (sess : RuntimeEndpoint)
    (s : ProgramState) (sp : SglSamplingParams) (res : HttpResponse) :
    List Request × Except Error (List Char × MetaInfo) :=
  match build_generate_data gc s sp with
  | .error e => ([], .error e)
  | .ok data =>
    match _add_images s data with
    | .error e => ([], .error e)
    | .ok data =>
      let req : Request := ⟨sess.base_url ++ "/generate", .generate data⟩
      match _assert_success res with
      | .error e => ([req], .error e)
      | .ok _ =>
        match res.body with
        | .obj t meta => ([req], .ok (t, meta))
        | _ => ([req], .error .TypeError)

/-- Server-reported snapshot carried by one streaming data frame:
cumulative `text` so far plus `meta_info`. -/
structure Snapshot where
  text : List Char
  meta_info : MetaInfo
deriving DecidableEq, Repr

/-- One line of a streaming response body, after the line-level decode of
`generate_stream`: a line starting with `data:` either carries a decoded
JSON snapshot or is the literal terminal `data: [DONE]`; any other line
does not match the data-frame test and is ignored. -/
inductive Frame where
  | data (snap : Snapshot)
  | done
  | other (line : String)
deriving DecidableEq, Repr

/-- Embeds the frame loop of `generate_stream` (the `for chunk in
res.iter_lines()` body): `pos` is the stream cursor.  A data frame
yields `delta = snapshot.text[pos:]` with its `meta_info` and advances
`pos` by `len(delta)`; the terminal sentinel breaks; other lines are
skipped.  Returns the yielded `(delta, meta_info)` pairs and the final
cursor. -/
def stream_loop (pos : Nat) :
    List Frame → List (List Char × MetaInfo) × Nat
  | [] => ([], pos)
  | .done :: _ => ([], pos)
  | .other _ :: rest => stream_loop pos rest
  | .data snap :: rest =>
    let delta := snap.text.drop pos
    let r := stream_loop (pos + delta.length) rest
    ((delta, snap.meta_info) :: r.1, r.2)

/-- A streaming HTTP response: status code, decoded body (for the error
detail on a non-success status) and the sequence of received lines. -/
structure StreamResponse where
  status_code : Nat
  body : RespBody
  frames : List Frame
deriving DecidableEq, Repr

/-- Embeds `generate_stream`: build the payload, set the `stream`
discriminator, attach the image, issue one request, assert success, run
the frame loop from cursor 0. -/
def generate_stream (gc : GlobalConfig) (sess : RuntimeEndpoint)
    (s : ProgramState) (sp : SglSamplingParams) (res : StreamResponse) :
    List Request × Except Error (List (List Char × MetaInfo) × Nat) :=
  match build_generate_data gc s sp with
  | .error e => ([], .error e)
  | .ok data =>
    let data := { data with stream := some true }
    match _add_images s data with
    | .error e => ([], .error e)
    | .ok data =>
      let req : Request := ⟨sess.base_url ++ "/generate", .generate data⟩
      if res.status_code = 200 then ([req], .ok (stream_loop 0 res.frames))
      else ([req], .error (.ProtocolError res.body))

/-! The bounded test runner (`python/sglang/test/test_utils.py`).
`run_unittest_files` spawns one `multiprocessing.Process` per file,
joined under `run_with_timeout` (a watchdog thread with
`t.join(timeout)` that raises `TimeoutError` when the worker is still
alive).  The join-with-timeout outcome of a unit is abstracted as a
`UnitBehavior`: the worker either finishes within the timeout with some
exit code, or is still running when the timeout elapses. -/

/-- Observable behavior of one test unit's worker process. -/
inductive UnitBehavior where
  | finishes (exitcode : Int)
  | hangs
deriving DecidableEq, Repr

/-- Terminal state recorded for a started unit. -/
inductive UnitOutcome where
  | SUCCEEDED
  | FAILED
  | TIMED_OUT
deriving DecidableEq, Repr

/-- Process-level side effects of the runner, in order. -/
inductive RunnerEvent where
  | spawn
  | terminate
  | sleepGrace (seconds : Nat)
deriving DecidableEq, Repr

/-- A Python return value of `run_unittest_files`: the function returns
the `int` `0` or `-1` at its final line, but the timeout branch returns
the `bool` `False`. -/
inductive PyRet where
  | int (n : Int)
  | bool (b : Bool)
deriving DecidableEq, Repr

/-- Numeric value of a Python return value when used as an integer
(e.g. a process exit status): Python's `bool` is an `int` subtype with
`False == 0` and `True == 1`. -/
def PyRet.toInt : PyRet → Int
  | .int n => n
  | .bool b => if b then 1 else 0

/-- Embeds the loop of `run_unittest_files` over the (abstracted) unit
behaviors, recording the event trace, the per-unit outcomes, and the
Python return value.  A unit that finishes with exit code 0 continues
the loop; a non-zero exit code sets `success = False` and breaks,
reaching `return 0 if success else -1`; a `TimeoutError` from the
watchdog leads to `p.terminate()`, `time.sleep(5)`, the timeout message,
and `return False`. -/
def run_unittest_files : List UnitBehavior →
    List RunnerEvent × List UnitOutcome × PyRet
  | [] => ([], [], .int 0)
  | .hangs :: _ =>
    ([.spawn, .terminate, .sleepGrace 5], [.TIMED_OUT], .bool false)
  | .finishes code :: rest =>
    if code ≠ 0 then ([.spawn], [.FAILED], .int (-1))
    else
      let r := run_unittest_files rest
      (.spawn :: r.1, .SUCCEEDED :: r.2.1, r.2.2)

/-! Helper lemmas about `list_max` and `np_argmax`. -/

theorem list_max_eq_none {l : List ℚ} : list_max l = none ↔ l = [] := by
  cases l with
  | nil => simp [list_max]
  | cons x xs =>
    simp only [list_max]
    cases list_max xs <;> simp

theorem list_max_mem {l : List ℚ} {m : ℚ} (h : list_max l = some m) :
    m ∈ l := by
  induction l generalizing m with
  | nil => simp [list_max] at h
  | cons x xs ih =>
    simp only [list_max] at h
    cases hx : list_max xs with
    | none =>
      rw [hx] at h
      simp at h
      simp [h]
    | some mx =>
      rw [hx] at h
      simp at h
      rcases max_choice x mx with hc | hc
      · rw [← h, hc]; exact List.mem_cons_self x xs
      · rw [← h, hc]; exact List.mem_cons_of_mem _ (ih hx)

theorem le_list_max {l : List ℚ} {m : ℚ} (h : list_max l = some m) :
    ∀ x ∈ l, x ≤ m := by
  induction l generalizing m with
  | nil => simp
  | cons a xs ih =>
    simp only [list_max] at h
    cases hx : list_max xs with
    | none =>
      rw [hx] at h
      simp at h
      have hnil : xs = [] := list_max_eq_none.mp hx
      subst hnil
      simp [← h]
    | some mx =>
      rw [hx] at h
      simp at h
      intro y hy
      rcases List.mem_cons.mp hy with hya | hyx
      · rw [hya, ← h]; exact le_max_left _ _
      · calc y ≤ mx := ih hx y hyx
          _ ≤ m := h ▸ le_max_right _ _

theorem list_max_isSome {l : List ℚ} (h : l ≠ []) :
    ∃ m, list_max l = some m := by
  cases hx : list_max l with
  | none => exact absurd (list_max_eq_none.mp hx) h
  | some m => exact ⟨m, rfl⟩

/-- First-occurrence property of `List.indexOf`: everything strictly
before the index of `m` differs from `m`. -/
theorem indexOf_first {l : List ℚ} {m : ℚ} (hm : m ∈ l) :
    ∀ j, j < l.indexOf m → ∀ hj2 : j < l.length,
      l.get ⟨j, hj2⟩ ≠ m := by
  induction l with
  | nil => simp at hm
  | cons a xs ih =>
    by_cases ha : a = m
    · intro j hj hj2
      rw [List.indexOf_cons_eq xs ha] at hj
      omega
    · intro j hj hj2
      rw [List.indexOf_cons_ne xs ha] at hj
      have hmx : m ∈ xs := by
        rcases List.mem_cons.mp hm with h | h
        · exact absurd h.symm ha
        · exact h
      cases j with
      | zero => simpa using ha
      | succ j' =>
        have hj' : j' < xs.indexOf m := Nat.lt_of_succ_lt_succ hj
        have hj2' : j' < xs.length := Nat.lt_of_succ_lt_succ hj2
        simpa using ih hmx j' hj' hj2'

/-- Specification of `np_argmax`: on a nonempty list it returns the
index of an element that is maximal and is the first occurrence of the
maximum (every earlier element is strictly smaller). -/
theorem np_argmax_spec {l : List ℚ} {i : Nat} (h : np_argmax l = some i) :
    ∃ hi : i < l.length,
      (∀ j (hj : j < l.length), l.get ⟨j, hj⟩ ≤ l.get ⟨i, hi⟩) ∧
      (∀ j (hj2 : j < l.length), j < i → l.get ⟨j, hj2⟩ < l.get ⟨i, hi⟩) := by
  simp only [np_argmax, Option.map_eq_some'] at h
  obtain ⟨m, hmax, hidx⟩ := h
  have hmem : m ∈ l := list_max_mem hmax
  have hi : i < l.length := by
    rw [← hidx]; exact List.indexOf_lt_length.mpr hmem
  have hget : l.get ⟨i, hi⟩ = m := by
    subst hidx
    exact List.indexOf_get _
  refine ⟨hi, ?_, ?_⟩
  · intro j hj
    rw [hget]
    exact le_list_max hmax _ (List.get_mem l j hj)
  · intro j hj2 hji
    rw [hget]
    have hne : l.get ⟨j, hj2⟩ ≠ m := by
      subst hidx
      exact indexOf_first hmem j hji hj2
    exact lt_of_le_of_ne (le_list_max hmax _ (List.get_mem l j hj2)) hne

theorem np_argmax_isSome {l : List ℚ} (h : l ≠ []) :
    ∃ i, np_argmax l = some i := by
  obtain ⟨m, hm⟩ := list_max_isSome h
  exact ⟨l.indexOf m, by simp [np_argmax, hm]⟩

/-! Helper lemmas about `_add_images`, `_assert_success` and `select`. -/

/-- The normalized log-probability vector read off a batched response. -/
def normalized_scores (items : List (List Char × MetaInfo)) : List ℚ :=
  items.map fun r => r.2.normalized_prompt_logprob

theorem add_images_nil {s : ProgramState} (h : s.images_ = [])
    (d : GenerateData) : _add_images s d = .ok d := by
  unfold _add_images
  rw [h]

theorem add_images_error {s : ProgramState} {d : GenerateData} {e : Error}
    (h : _add_images s d = .error e) :
    e = .UsageError "Only support one image." := by
  unfold _add_images at h
  cases hs : s.images_ with
  | nil => rw [hs] at h; simp at h
  | cons a t =>
    cases t with
    | nil => rw [hs] at h; simp at h
    | cons b t2 => rw [hs] at h; simp at h; exact h.symm

theorem assert_success_error {r : HttpResponse} {e : Error}
    (h : _assert_success r = .error e) : e = .ProtocolError r.body := by
  unfold _assert_success at h
  split at h <;> simp_all

/-- Full evaluation of `select` on 200-status responses of the expected
shapes, for a state with no attached image. -/
theorem select_unfold (sess : RuntimeEndpoint) (s : ProgramState)
    (choices : List (List Char)) (temperature : ℚ) (t1 : List Char)
    (meta1 : MetaInfo) (items : List (List Char × MetaInfo))
    (htemp : temperature ≤ tempThreshold) (himg : s.images_ = []) :
    select sess s choices temperature ⟨200, .obj t1 meta1⟩
        ⟨200, .arr items⟩ =
      ([⟨sess.base_url ++ "/generate",
         .generate { text := .single s.text_,
                     sampling_params := { max_new_tokens := some 0 } }⟩,
        ⟨sess.base_url ++ "/generate",
         .generate { text := .batch (choices.map fun c => s.text_ ++ c),
                     sampling_params := { max_new_tokens := some 0 },
                     return_logprob := some true,
                     logprob_start_len :=
                       some (max ((meta1.prompt_tokens : Int) - 2) 0) }⟩],
       match np_argmax (normalized_scores items) with
       | none =>
         .error (.ValueError "attempt to get argmax of an empty sequence")
       | some i =>
         match choices[i]? with
         | none => .error .IndexError
         | some decision =>
           .ok { decision := decision,
                 normalized_prompt_logprobs := normalized_scores items,
                 input_token_logprobs :=
                   items.map fun r => r.2.input_token_logprobs,
                 output_token_logprobs :=
                   items.map fun r => r.2.output_token_logprobs }) := by
  rw [select, if_pos htemp]
  simp only [add_images_nil himg, _assert_success, normalized_scores]
  norm_num
  split
  · rfl
  · split <;> rfl

/-- Shared success-path lemma for `select`: with well-shaped 200
responses, a non-empty choice list and one response item per choice, the
decision is `choices[i]` for the index `i` chosen by `np_argmax` over
the normalized log-probabilities. -/
theorem select_ok (sess : RuntimeEndpoint) (s : ProgramState)
    (choices : List (List Char)) (temperature : ℚ) (t1 : List Char)
    (meta1 : MetaInfo) (items : List (List Char × MetaInfo))
    (htemp : temperature ≤ tempThreshold) (himg : s.images_ = [])
    (hne : choices ≠ []) (hlen : items.length = choices.length) :
    ∃ (i : Nat) (hi : i < choices.length),
      np_argmax (normalized_scores items) = some i ∧
      (select sess s choices temperature ⟨200, .obj t1 meta1⟩
          ⟨200, .arr items⟩).2 =
        .ok { decision := choices.get ⟨i, hi⟩,
              normalized_prompt_logprobs := normalized_scores items,
              input_token_logprobs :=
                items.map fun r => r.2.input_token_logprobs,
              output_token_logprobs :=
                items.map fun r => r.2.output_token_logprobs } := by
  have hslen : (normalized_scores items).length = choices.length := by
    simp [normalized_scores, hlen]
  have hsne : normalized_scores items ≠ [] := by
    intro h0
    rw [h0] at hslen
    exact hne (List.length_eq_zero.mp hslen.symm)
  obtain ⟨i, hargmax⟩ := np_argmax_isSome hsne
  obtain ⟨hi2, -, -⟩ := np_argmax_spec hargmax
  have hi : i < choices.length := hslen ▸ hi2
  have hgetq : choices[i]? = some (choices.get ⟨i, hi⟩) := by
    rw [List.getElem?_eq_getElem hi]
    simp
  refine ⟨i, hi, hargmax, ?_⟩
  rw [select_unfold sess s choices temperature t1 meta1 items htemp himg]
  simp only [hargmax, hgetq]

/-- Trace lemma for `select`: once the temperature check passes, the
state has no image and the priming response is a 200 single object, the
issued requests are exactly the priming request and the single batched
scoring request, whatever the scoring response is. -/
theorem select_trace (sess : RuntimeEndpoint) (s : ProgramState)
    (choices : List (List Char)) (temperature : ℚ) (t1 : List Char)
    (meta1 : MetaInfo) (res2 : HttpResponse)
    (htemp : temperature ≤ tempThreshold) (himg : s.images_ = []) :
    (select sess s choices temperature ⟨200, .obj t1 meta1⟩ res2).1 =
      [⟨sess.base_url ++ "/generate",
        .generate { text := .single s.text_,
                    sampling_params := { max_new_tokens := some 0 } }⟩,
       ⟨sess.base_url ++ "/generate",
        .generate { text := .batch (choices.map fun c => s.text_ ++ c),
                    sampling_params := { max_new_tokens := some 0 },
                    return_logprob := some true,
                    logprob_start_len :=
                      some (max ((meta1.prompt_tokens : Int) - 2) 0) }⟩] := by
  rcases res2 with ⟨code2, body2⟩
  rw [select, if_pos htemp]
  simp only [add_images_nil himg]
  by_cases h2 : code2 = 200
  · subst h2
    cases body2 with
    | obj t m => simp [_assert_success]
    | raw str => simp [_assert_success]
    | arr its =>
      simp only [_assert_success, if_pos rfl]
      cases hx : np_argmax (normalized_scores its) with
      | none => simp [normalized_scores] at hx; simp [hx]
      | some i =>
        simp only [normalized_scores] at hx
        simp only [hx]
        cases hz : (choices[i]?) with
        | none => simp [hz]
        | some d => simp [hz]
  · simp [_assert_success, h2]

/-! Theorems for the claims. -/

/-- C2: for every non-empty choice list and the normalized prompt
log-probabilities returned for them (one response item per choice),
`select` returns the choice whose normalized log-probability is maximal,
and on ties the one occurring first in input order (every strictly
earlier choice scores strictly lower). -/
theorem C2_select_max_first_tie (sess : RuntimeEndpoint)
    (s : ProgramState) (choices : List (List Char)) (temperature : ℚ)
    (t1 : List Char) (meta1 : MetaInfo)
    (items : List (List Char × MetaInfo))
    (htemp : temperature ≤ tempThreshold) (himg : s.images_ = [])
    (hne : choices ≠ []) (hlen : items.length = choices.length) :
    ∃ (r : SelectResult) (i : Nat) (hi : i < choices.length)
      (hi2 : i < (normalized_scores items).length),
      (select sess s choices temperature ⟨200, .obj t1 meta1⟩
          ⟨200, .arr items⟩).2 = .ok r ∧
      r.decision = choices.get ⟨i, hi⟩ ∧
      r.normalized_prompt_logprobs = normalized_scores items ∧
      (∀ j (hj : j < (normalized_scores items).length),
        (normalized_scores items).get ⟨j, hj⟩ ≤
          (normalized_scores items).get ⟨i, hi2⟩) ∧
      (∀ j (hj : j < (normalized_scores items).length), j < i →
        (normalized_scores items).get ⟨j, hj⟩ <
          (normalized_scores items).get ⟨i, hi2⟩) := by
  obtain ⟨i, hi, hargmax, hok⟩ :=
    select_ok sess s choices temperature t1 meta1 items htemp himg hne hlen
  obtain ⟨hi2, hmax, hfirst⟩ := np_argmax_spec hargmax
  exact ⟨_, i, hi, hi2, hok, rfl, rfl, hmax, hfirst⟩

/-- C2 witness: with two choices scored 1 and 5/2, `select` picks the
second; the instance discharges every hypothesis at concrete inputs. -/
theorem C2_select_max_first_tie_witness :
    ∃ (r : SelectResult) (i : Nat) (hi : i < [['a'], ['b']].length)
      (hi2 : i <
        (normalized_scores
          [(['a'], ⟨3, 0, 1, [], []⟩), (['b'], ⟨3, 0, 5/2, [], []⟩)]).length),
      (select { base_url := "http://host" } ⟨['p'], []⟩ [['a'], ['b']] 0
          ⟨200, .obj [] ⟨3, 0, 0, [], []⟩⟩
          ⟨200, .arr
            [(['a'], ⟨3, 0, 1, [], []⟩), (['b'], ⟨3, 0, 5/2, [], []⟩)]⟩).2 =
        .ok r ∧
      r.decision = [['a'], ['b']].get ⟨i, hi⟩ ∧
      r.normalized_prompt_logprobs =
        normalized_scores
          [(['a'], ⟨3, 0, 1, [], []⟩), (['b'], ⟨3, 0, 5/2, [], []⟩)] ∧
      (∀ j (hj : j <
          (normalized_scores
            [(['a'], ⟨3, 0, 1, [], []⟩), (['b'], ⟨3, 0, 5/2, [], []⟩)]).length),
        (normalized_scores
          [(['a'], ⟨3, 0, 1, [], []⟩), (['b'], ⟨3, 0, 5/2, [], []⟩)]).get
            ⟨j, hj⟩ ≤
          (normalized_scores
            [(['a'], ⟨3, 0, 1, [], []⟩), (['b'], ⟨3, 0, 5/2, [], []⟩)]).get
            ⟨i, hi2⟩) ∧
      (∀ j (hj : j <
          (normalized_scores
            [(['a'], ⟨3, 0, 1, [], []⟩), (['b'], ⟨3, 0, 5/2, [], []⟩)]).length),
        j < i →
        (normalized_scores
          [(['a'], ⟨3, 0, 1, [], []⟩), (['b'], ⟨3, 0, 5/2, [], []⟩)]).get
            ⟨j, hj⟩ <
          (normalized_scores
            [(['a'], ⟨3, 0, 1, [], []⟩), (['b'], ⟨3, 0, 5/2, [], []⟩)]).get
            ⟨i, hi2⟩) :=
  C2_select_max_first_tie { base_url := "http://host" } ⟨['p'], []⟩
    [['a'], ['b']] 0 [] ⟨3, 0, 0, [], []⟩
    [(['a'], ⟨3, 0, 1, [], []⟩), (['b'], ⟨3, 0, 5/2, [], []⟩)]
    (by norm_num [tempThreshold]) rfl (by decide) (by decide)

/-- C8: the claim that the session's proxy operations all fail only via
`ProtocolError` on a non-success status is refuted by the code:
`flush_cache` and `get_server_args` read `self.auth_token`, an attribute
the constructor never assigns (it assigns `api_key`), so both raise
`AttributeError` before issuing any request — even when the server would
answer 200. -/
theorem C8_auth_token_attribute_error (sess : RuntimeEndpoint)
    (res : HttpResponse) :
    flush_cache sess res = ([], .error (.AttributeError "auth_token")) ∧
    get_server_args sess res = ([], .error (.AttributeError "auth_token")) := by
  have h : ¬ ("auth_token" ∈ runtime_endpoint_attrs) := by decide
  constructor
  · simp [flush_cache, h]
  · simp [get_server_args, h]

/-- C9 counterexample: the request issued by `concatenate_and_append` is
not reached at the path `concatenate_and_append_request` named by the
claim; at a concrete base address the single issued request's URL is
`http://host/concate_and_append_request`. -/
theorem C9_path_counterexample :
    (concatenate_and_append { base_url := "http://host" } [['a']] ['b']
        ⟨200, .raw ""⟩).1 =
      [⟨"http://host/concate_and_append_request", .concate [['a']] ['b']⟩] ∧
    ∀ req ∈ (concatenate_and_append { base_url := "http://host" } [['a']] ['b']
        ⟨200, .raw ""⟩).1,
      req.url ≠ "http://host/concatenate_and_append_request" := by
  constructor
  · rfl
  · decide

/-- C9 amended: `concatenate_and_append(source_ids, destination_id)`
issues exactly one request, at the fixed path
`concate_and_append_request` under the configured base address, carrying
the source ids and destination id, performs no local validation of id
existence (it holds for all ids), and fails with `ProtocolError`
carrying the decoded body exactly on a non-success status. -/
theorem C9_concatenate_and_append_amended (sess : RuntimeEndpoint)
    (src_rids : List (List Char)) (dst_rid : List Char)
    (res : HttpResponse) :
    concatenate_and_append sess src_rids dst_rid res =
      ([⟨sess.base_url ++ "/concate_and_append_request",
         .concate src_rids dst_rid⟩],
       if res.status_code = 200 then .ok ()
       else .error (.ProtocolError res.body)) := by
  simp [concatenate_and_append, _assert_success]

/-- C4: on a unit whose worker outlives the timeout the runner does
terminate the worker, sleep the 5-second grace period, record
`TIMED_OUT` and stop, but the claim's "reports overall failure" fails:
the timeout branch returns the Python `bool` `False`, which as an
integer (Python's `bool` is an `int` subtype) equals `0` — the very
value the runner returns on overall success — and differs from the
`-1` the runner returns on a failed unit. -/
theorem C4_timeout_return_is_success_value :
    run_unittest_files [.hangs] =
      ([.spawn, .terminate, .sleepGrace 5], [.TIMED_OUT], .bool false) ∧
    (run_unittest_files [.hangs]).2.2 ≠ .int (-1) ∧
    PyRet.toInt (run_unittest_files [.hangs]).2.2 =
      PyRet.toInt (run_unittest_files []).2.2 := by
  decide

/-- C5: the runner processes units strictly in input order: when every
unit finishes with exit status 0 the runner spawns each unit in order,
records all `SUCCEEDED` and returns the success value 0; when a unit
finishes with a non-zero exit status after a run of successes, the
runner spawns exactly the units up to and including it, records
`FAILED` for it, never starts any later unit, and returns the failure
value -1. -/
theorem C5_fail_fast :
    (∀ bs : List UnitBehavior, (∀ b ∈ bs, b = .finishes 0) →
      run_unittest_files bs =
        (bs.map fun _ => RunnerEvent.spawn,
         bs.map fun _ => UnitOutcome.SUCCEEDED, .int 0)) ∧
    (∀ (xs : List UnitBehavior) (c : Int) (ys : List UnitBehavior),
      c ≠ 0 → (∀ b ∈ xs, b = .finishes 0) →
      run_unittest_files (xs ++ .finishes c :: ys) =
        ((xs.map fun _ => RunnerEvent.spawn) ++ [RunnerEvent.spawn],
         (xs.map fun _ => UnitOutcome.SUCCEEDED) ++ [UnitOutcome.FAILED],
         .int (-1))) := by
  constructor
  · intro bs h
    induction bs with
    | nil => rfl
    | cons b rest ih =>
      have hb : b = .finishes 0 := h b (List.mem_cons_self b rest)
      subst hb
      have hrest : ∀ x ∈ rest, x = UnitBehavior.finishes 0 :=
        fun x hx => h x (List.mem_cons_of_mem _ hx)
      simp [run_unittest_files, ih hrest]
  · intro xs c ys hc hx
    induction xs with
    | nil => simp [run_unittest_files, hc]
    | cons b rest ih =>
      have hb : b = .finishes 0 := hx b (List.mem_cons_self b rest)
      subst hb
      have hrest : ∀ x ∈ rest, x = UnitBehavior.finishes 0 :=
        fun x h => hx x (List.mem_cons_of_mem _ h)
      simp [run_unittest_files, ih hrest]

/-- C5 witness: on units [A: exit 0, B: exit 1, C: exit 0] the runner
spawns exactly A and B, records SUCCEEDED then FAILED, never invokes C,
and returns -1; on [exit 0, exit 0] it returns 0. -/
theorem C5_fail_fast_witness :
    run_unittest_files [.finishes 0, .finishes 1, .finishes 0] =
      ([.spawn, .spawn], [.SUCCEEDED, .FAILED], .int (-1)) ∧
    run_unittest_files [.finishes 0, .finishes 0] =
      ([.spawn, .spawn], [.SUCCEEDED, .SUCCEEDED], .int 0) := by
  refine ⟨?_, ?_⟩
  · have h := C5_fail_fast.2 [.finishes 0] 1 [.finishes 0]
      (by decide) (by decide)
    simpa using h
  · have h := C5_fail_fast.1 [.finishes 0, .finishes 0] (by decide)
    simpa using h

/-- C10: with one response item per choice, `select` returns a value
exactly when the choices list is non-empty, and the returned decision is
then an element of the choices list; on an empty choices list the
`np.argmax` of the empty score vector raises `ValueError` instead of
returning. -/
theorem C10_select_decision_in_choices (sess : RuntimeEndpoint)
    (s : ProgramState) (choices : List (List Char)) (temperature : ℚ)
    (t1 : List Char) (meta1 : MetaInfo)
    (items : List (List Char × MetaInfo))
    (htemp : temperature ≤ tempThreshold) (himg : s.images_ = [])
    (hlen : items.length = choices.length) :
    (choices ≠ [] →
      ∃ r, (select sess s choices temperature ⟨200, .obj t1 meta1⟩
          ⟨200, .arr items⟩).2 = .ok r ∧ r.decision ∈ choices) ∧
    (choices = [] →
      (select sess s choices temperature ⟨200, .obj t1 meta1⟩
          ⟨200, .arr items⟩).2 =
        .error (.ValueError "attempt to get argmax of an empty sequence")) := by
  constructor
  · intro hne
    obtain ⟨i, hi, -, hok⟩ :=
      select_ok sess s choices temperature t1 meta1 items htemp himg hne hlen
    exact ⟨_, hok, List.get_mem choices i hi⟩
  · intro h0
    subst h0
    have hitems : items = [] := List.length_eq_zero.mp (by simpa using hlen)
    subst hitems
    rw [select_unfold sess s [] temperature t1 meta1 [] htemp himg]
    rfl

/-- C10 witness: a singleton choices list with one response item yields
a decision in the list; the empty choices list yields the `ValueError`. -/
theorem C10_select_decision_in_choices_witness :
    (∃ r, (select { base_url := "http://host" } ⟨['p'], []⟩ [['a']] 0
        ⟨200, .obj [] ⟨3, 0, 0, [], []⟩⟩
        ⟨200, .arr [(['a'], ⟨3, 0, 1, [], []⟩)]⟩).2 = .ok r ∧
      r.decision ∈ [['a']]) ∧
    (select { base_url := "http://host" } ⟨['p'], []⟩ [] 0
        ⟨200, .obj [] ⟨3, 0, 0, [], []⟩⟩ ⟨200, .arr []⟩).2 =
      .error (.ValueError "attempt to get argmax of an empty sequence") :=
  ⟨(C10_select_decision_in_choices { base_url := "http://host" } ⟨['p'], []⟩
      [['a']] 0 [] ⟨3, 0, 0, [], []⟩ [(['a'], ⟨3, 0, 1, [], []⟩)]
      (by norm_num [tempThreshold]) rfl (by decide)).1 (by decide),
   (C10_select_decision_in_choices { base_url := "http://host" } ⟨['p'], []⟩
      [] 0 [] ⟨3, 0, 0, [], []⟩ []
      (by norm_num [tempThreshold]) rfl rfl).2 rfl⟩

/-- C6: a call to `select` with temperature above the 1e-5 threshold
fails with the temperature `UsageError` while issuing no request; with
temperature at or below the threshold the precondition check passes —
the result is never that error. -/
theorem C6_temperature_precondition (sess : RuntimeEndpoint)
    (s : ProgramState) (choices : List (List Char)) (temperature : ℚ)
    (res1 res2 : HttpResponse) :
    (tempThreshold < temperature →
      select sess s choices temperature res1 res2 =
        ([], .error (.UsageError tempAssertMsg))) ∧
    (temperature ≤ tempThreshold →
      (select sess s choices temperature res1 res2).2 ≠
        .error (.UsageError tempAssertMsg)) := by
  constructor
  · intro h
    rw [select, if_neg (not_le.mpr h)]
  · intro h hbad
    rw [select, if_pos h] at hbad
    cases hx1 : _add_images s
        { text := .single s.text_,
          sampling_params := { max_new_tokens := some 0 } } with
    | error e =>
      simp only [hx1] at hbad
      simp at hbad
      have he := add_images_error hx1
      rw [hbad] at he
      simp [tempAssertMsg] at he
    | ok d1 =>
      simp only [hx1] at hbad
      cases hx2 : _assert_success res1 with
      | error e =>
        simp only [hx2] at hbad
        simp at hbad
        have he := assert_success_error hx2
        rw [hbad] at he
        simp at he
      | ok u =>
        simp only [hx2] at hbad
        cases hb1 : res1.body with
        | arr a => simp [hb1] at hbad
        | raw a => simp [hb1] at hbad
        | obj t1 m1 =>
          simp only [hb1] at hbad
          cases hx3 : _add_images s
              { text := .batch (choices.map fun c => s.text_ ++ c),
                sampling_params := { max_new_tokens := some 0 },
                return_logprob := some true,
                logprob_start_len :=
                  some (max ((m1.prompt_tokens : Int) - 2) 0) } with
          | error e =>
            simp only [hx3] at hbad
            simp at hbad
            have he := add_images_error hx3
            rw [hbad] at he
            simp [tempAssertMsg] at he
          | ok d2 =>
            simp only [hx3] at hbad
            cases hx4 : _assert_success res2 with
            | error e =>
              simp only [hx4] at hbad
              simp at hbad
              have he := assert_success_error hx4
              rw [hbad] at he
              simp at he
            | ok u2 =>
              simp only [hx4] at hbad
              cases hb2 : res2.body with
              | obj a b => simp [hb2] at hbad
              | raw a => simp [hb2] at hbad
              | arr its =>
                simp only [hb2] at hbad
                cases ha : np_argmax
                    (its.map fun r => r.2.normalized_prompt_logprob) with
                | none =>
                  simp only [ha] at hbad
                  simp [tempAssertMsg] at hbad
                | some i =>
                  simp only [ha] at hbad
                  cases hc : choices[i]? with
                  | none => simp [hc] at hbad
                  | some d => simp [hc] at hbad

/-- C6 witness: temperature 1 is rejected with the temperature
`UsageError` and an empty request trace; temperature 0 passes the
precondition check. -/
theorem C6_temperature_precondition_witness :
    select { base_url := "http://host" } ⟨['p'], []⟩ [['a']] 1
        ⟨200, .raw ""⟩ ⟨200, .raw ""⟩ =
      ([], .error (.UsageError tempAssertMsg)) ∧
    (select { base_url := "http://host" } ⟨['p'], []⟩ [['a']] 0
        ⟨200, .raw ""⟩ ⟨200, .raw ""⟩).2 ≠
      .error (.UsageError tempAssertMsg) :=
  ⟨(C6_temperature_precondition { base_url := "http://host" } ⟨['p'], []⟩
      [['a']] 1 ⟨200, .raw ""⟩ ⟨200, .raw ""⟩).1
      (by norm_num [tempThreshold]),
   (C6_temperature_precondition { base_url := "http://host" } ⟨['p'], []⟩
      [['a']] 0 ⟨200, .raw ""⟩ ⟨200, .raw ""⟩).2
      (by norm_num [tempThreshold])⟩

/-- C3: for every prompt token count `p` reported by the priming call,
the scoring request built by `select` is the single second request, a
batched request over `[prompt + choice for choice in choices]` with
`max_new_tokens = 0`, `return_logprob` enabled and
`logprob_start_len = max(p - 2, 0)`. -/
theorem C3_scoring_request (sess : RuntimeEndpoint) (s : ProgramState)
    (choices : List (List Char)) (temperature : ℚ) (t1 : List Char)
    (meta1 : MetaInfo) (res2 : HttpResponse)
    (htemp : temperature ≤ tempThreshold) (himg : s.images_ = []) :
    ∃ d : GenerateData,
      (select sess s choices temperature ⟨200, .obj t1 meta1⟩ res2).1 =
        [⟨sess.base_url ++ "/generate",
          .generate { text := .single s.text_,
                      sampling_params := { max_new_tokens := some 0 } }⟩,
         ⟨sess.base_url ++ "/generate", .generate d⟩] ∧
      d.text = .batch (choices.map fun c => s.text_ ++ c) ∧
      d.sampling_params.max_new_tokens = some 0 ∧
      d.return_logprob = some true ∧
      d.logprob_start_len = some (max ((meta1.prompt_tokens : Int) - 2) 0) :=
  ⟨_, select_trace sess s choices temperature t1 meta1 res2 htemp himg,
   rfl, rfl, rfl, rfl⟩

/-- C3 witness: with a priming response reporting `prompt_tokens = 0`,
the scoring request carries `logprob_start_len = max(0 - 2, 0) = 0`. -/
theorem C3_scoring_request_witness :
    ∃ d : GenerateData,
      (select { base_url := "http://host" } ⟨['p'], []⟩ [['a']] 0
          ⟨200, .obj [] ⟨0, 0, 0, [], []⟩⟩ ⟨200, .raw ""⟩
        |>.1) =
        [⟨"http://host" ++ "/generate",
          .generate { text := .single ['p'],
                      sampling_params := { max_new_tokens := some 0 } }⟩,
         ⟨"http://host" ++ "/generate", .generate d⟩] ∧
      d.text = .batch ([['a']].map fun c => ['p'] ++ c) ∧
      d.sampling_params.max_new_tokens = some 0 ∧
      d.return_logprob = some true ∧
      d.logprob_start_len = some 0 := by
  obtain ⟨d, h1, h2, h3, h4, h5⟩ :=
    C3_scoring_request { base_url := "http://host" } ⟨['p'], []⟩ [['a']] 0
      [] ⟨0, 0, 0, [], []⟩ ⟨200, .raw ""⟩ (by norm_num [tempThreshold]) rfl
  refine ⟨d, h1, h2, h3, h4, ?_⟩
  rw [h5]
  norm_num

theorem add_images_one {s : ProgramState} {img : List Char × List Char}
    (hs : s.images_ = [img]) (d : GenerateData) :
    _add_images s d = .ok { d with image_data := some img.2 } := by
  unfold _add_images
  rw [hs]

theorem add_images_two {s : ProgramState} {a b : List Char × List Char}
    {t : List (List Char × List Char)} (hs : s.images_ = a :: b :: t)
    (d : GenerateData) :
    _add_images s d = .error (.UsageError "Only support one image.") := by
  unfold _add_images
  rw [hs]

/-- Trace of `generate`: once the payload builds and the image step
succeeds, exactly one request is issued, carrying the image-augmented
payload, whatever the response is. -/
theorem generate_trace (gc : GlobalConfig) (sess : RuntimeEndpoint)
    (s : ProgramState) (sp : SglSamplingParams) (res : HttpResponse)
    (d0 d1 : GenerateData) (hb : build_generate_data gc s sp = .ok d0)
    (ha : _add_images s d0 = .ok d1) :
    (generate gc sess s sp res).1 =
      [⟨sess.base_url ++ "/generate", .generate d1⟩] := by
  simp only [generate, hb, ha]
  cases hx : _assert_success res with
  | error e => simp [hx]
  | ok u => cases hb2 : res.body <;> simp [hx, hb2]

/-- C7: a generation call on a state with more than one attached image
fails with the image `UsageError` and issues no request; with exactly
one image the single issued request embeds the image's data under
`image_data`; with no image the field is absent. -/
theorem C7_image_handling (gc : GlobalConfig) (sess : RuntimeEndpoint)
    (s : ProgramState) (sp : SglSamplingParams) (res : HttpResponse)
    (hdtype : sp.dtype = none) :
    (2 ≤ s.images_.length →
      generate gc sess s sp res =
        ([], .error (.UsageError "Only support one image."))) ∧
    (∀ img, s.images_ = [img] →
      ∃ d : GenerateData,
        (generate gc sess s sp res).1 =
          [⟨sess.base_url ++ "/generate", .generate d⟩] ∧
        d.image_data = some img.2) ∧
    (s.images_ = [] →
      ∃ d : GenerateData,
        (generate gc sess s sp res).1 =
          [⟨sess.base_url ++ "/generate", .generate d⟩] ∧
        d.image_data = none) := by
  have hbuild : build_generate_data gc s sp =
      .ok { text := .single s.text_,
            sampling_params := to_srt_kwargs sp
              { skip_special_tokens := some gc.skip_special_tokens_in_output,
                spaces_between_special_tokens :=
                  some gc.spaces_between_special_tokens_in_out },
            return_logprob := sp.return_logprob,
            logprob_start_len := sp.logprob_start_len,
            top_logprobs_num := sp.top_logprobs_num,
            return_text_in_logprobs := sp.return_text_in_logprobs } := by
    rw [build_generate_data, hdtype]
  refine ⟨?_, ?_, ?_⟩
  · intro h2
    rcases hs : s.images_ with _ | ⟨a, rest⟩
    · rw [hs] at h2; simp at h2
    rcases rest with _ | ⟨b, t⟩
    · rw [hs] at h2; simp at h2
    · simp only [generate, hbuild, add_images_two hs]
  · intro img hs
    exact ⟨_, generate_trace gc sess s sp res _ _ hbuild
      (add_images_one hs _), rfl⟩
  · intro hs
    exact ⟨_, generate_trace gc sess s sp res _ _ hbuild
      (add_images_nil hs _), rfl⟩

/-- C7 witness: a two-image state is rejected with no request issued; a
one-image state embeds the image data; a no-image state omits the
field. -/
theorem C7_image_handling_witness :
    generate ⟨true, true⟩ { base_url := "http://host" }
        ⟨['p'], [(['i'], ['x']), (['j'], ['y'])]⟩ {} ⟨200, .raw ""⟩ =
      ([], .error (.UsageError "Only support one image.")) ∧
    (∃ d : GenerateData,
      (generate ⟨true, true⟩ { base_url := "http://host" }
          ⟨['p'], [(['i'], ['x'])]⟩ {} ⟨200, .raw ""⟩).1 =
        [⟨"http://host" ++ "/generate", .generate d⟩] ∧
      d.image_data = some ['x']) ∧
    (∃ d : GenerateData,
      (generate ⟨true, true⟩ { base_url := "http://host" }
          ⟨['p'], []⟩ {} ⟨200, .raw ""⟩).1 =
        [⟨"http://host" ++ "/generate", .generate d⟩] ∧
      d.image_data = none) :=
  ⟨(C7_image_handling ⟨true, true⟩ { base_url := "http://host" }
      ⟨['p'], [(['i'], ['x']), (['j'], ['y'])]⟩ {} ⟨200, .raw ""⟩ rfl).1
      (by decide),
   (C7_image_handling ⟨true, true⟩ { base_url := "http://host" }
      ⟨['p'], [(['i'], ['x'])]⟩ {} ⟨200, .raw ""⟩ rfl).2.1 (['i'], ['x']) rfl,
   (C7_image_handling ⟨true, true⟩ { base_url := "http://host" }
      ⟨['p'], []⟩ {} ⟨200, .raw ""⟩ rfl).2.2 rfl⟩

/-! Streaming lemmas for C1. -/

/-- Cumulative text of the last snapshot of a sequence ([] if empty). -/
def lastText (l : List Snapshot) : List Char :=
  match l.getLast? with
  | none => []
  | some s => s.text

theorem lastText_cons_cons (s t : Snapshot) (rest : List Snapshot) :
    lastText (s :: t :: rest) = lastText (t :: rest) := by
  simp [lastText, List.getLast?_cons_cons]

/-- Single-step unfolding of the frame loop on a data frame. -/
theorem stream_loop_data_cons (snap : Snapshot) (rest : List Frame)
    (pos : Nat) :
    stream_loop pos (Frame.data snap :: rest) =
      ((snap.text.drop pos, snap.meta_info) ::
        (stream_loop (pos + (snap.text.drop pos).length) rest).1,
       (stream_loop (pos + (snap.text.drop pos).length) rest).2) := rfl

/-- One delta is yielded per data frame. -/
theorem stream_loop_length (snaps : List Snapshot) :
    ∀ pos : Nat,
      ((stream_loop pos (snaps.map Frame.data)).1).length = snaps.length := by
  induction snaps with
  | nil => intro pos; rfl
  | cons s rest ih =>
    intro pos
    simp only [List.map_cons, stream_loop, List.length_cons]
    rw [ih]

/-- Invariant: at any point, the cursor equals its initial value plus
the total length of all deltas emitted so far. -/
theorem stream_loop_cursor (frames : List Frame) :
    ∀ pos : Nat,
      (stream_loop pos frames).2 =
        pos + ((stream_loop pos frames).1.map fun d => d.1.length).sum := by
  induction frames with
  | nil => intro pos; simp [stream_loop]
  | cons f rest ih =>
    intro pos
    cases f with
    | done => simp [stream_loop]
    | other line => simpa [stream_loop] using ih pos
    | data snap =>
      simp only [stream_loop, List.map_cons, List.sum_cons]
      rw [ih]
      omega

/-- The cursor never decreases. -/
theorem pos_le_stream_loop (frames : List Frame) (pos : Nat) :
    pos ≤ (stream_loop pos frames).2 := by
  rw [stream_loop_cursor]
  exact Nat.le_add_right _ _

/-- Along a prefix-extension chain, the first snapshot's text is a
prefix of the last one's. -/
theorem chain_head_last (rest : List Snapshot) :
    ∀ s : Snapshot,
      List.Chain' (fun a b => a.text <+: b.text) (s :: rest) →
      s.text <+: lastText (s :: rest) := by
  induction rest with
  | nil => intro s _; simp [lastText]
  | cons t rest' ih =>
    intro s hchain
    rw [lastText_cons_cons]
    exact ((List.chain'_cons.mp hchain).1).trans
      (ih t (List.chain'_cons.mp hchain).2)

theorem drop_prefix_append {a b : List Char} (h : a <+: b) {pos : Nat}
    (hp : pos ≤ a.length) :
    a.drop pos ++ b.drop a.length = b.drop pos := by
  obtain ⟨t, rfl⟩ := h
  rw [List.drop_left, List.drop_append_of_le_length hp]

/-- Core streaming lemma: over a nonempty prefix-extension chain of
cumulative snapshots, starting at a cursor within the first snapshot,
the concatenated deltas are the tail of the last snapshot past the
initial cursor, and the final cursor is the last snapshot's length. -/
theorem stream_loop_chain (rest : List Snapshot) :
    ∀ (s : Snapshot) (pos : Nat),
      List.Chain' (fun a b => a.text <+: b.text) (s :: rest) →
      pos ≤ s.text.length →
      (((stream_loop pos ((s :: rest).map Frame.data)).1.map
          Prod.fst).flatten = (lastText (s :: rest)).drop pos ∧
        (stream_loop pos ((s :: rest).map Frame.data)).2 =
          (lastText (s :: rest)).length) := by
  induction rest with
  | nil =>
    intro s pos _ hpos
    simp only [List.map_cons, List.map_nil, stream_loop,
      List.append_nil, lastText, List.getLast?_singleton]
    constructor
    · simp
    · rw [List.length_drop]
      omega
  | cons t rest' ih =>
    intro s pos hchain hpos
    have h1 : s.text <+: t.text := (List.chain'_cons.mp hchain).1
    have h2 : List.Chain' (fun a b => a.text <+: b.text) (t :: rest') :=
      (List.chain'_cons.mp hchain).2
    have hlen : s.text.length ≤ t.text.length := h1.length_le
    have hpos' : pos + (s.text.drop pos).length = s.text.length := by
      rw [List.length_drop]
      omega
    have ihr := ih t s.text.length h2 hlen
    have hpl : s.text <+: lastText (t :: rest') :=
      h1.trans (chain_head_last rest' t h2)
    rw [lastText_cons_cons]
    constructor
    · rw [List.map_cons, stream_loop_data_cons, hpos']
      show s.text.drop pos ++
          ((stream_loop s.text.length
            ((t :: rest').map Frame.data)).1.map Prod.fst).flatten =
        (lastText (t :: rest')).drop pos
      rw [ihr.1]
      exact drop_prefix_append hpl hpos
    · rw [List.map_cons, stream_loop_data_cons, hpos']
      exact ihr.2

/-- Composition of the frame loop over an append of data frames: the
second part starts at the cursor the first part ends with. -/
theorem stream_loop_append_data (xs ys : List Snapshot) :
    ∀ pos : Nat,
      stream_loop pos ((xs ++ ys).map Frame.data) =
        ((stream_loop pos (xs.map Frame.data)).1 ++
          (stream_loop (stream_loop pos (xs.map Frame.data)).2
            (ys.map Frame.data)).1,
          (stream_loop (stream_loop pos (xs.map Frame.data)).2
            (ys.map Frame.data)).2) := by
  induction xs with
  | nil => intro pos; simp [stream_loop]
  | cons a t ih =>
    intro pos
    have e1 : ((a :: t) ++ ys).map Frame.data =
        Frame.data a :: (t ++ ys).map Frame.data := rfl
    have e2 : (a :: t).map Frame.data =
        Frame.data a :: t.map Frame.data := rfl
    rw [e1, stream_loop_data_cons, ih, e2, stream_loop_data_cons]
    rfl

/-- Last snapshot of `take (k+1)` is the k-th snapshot. -/
theorem lastText_take (snaps : List Snapshot) (k : Nat)
    (hk : k < snaps.length) :
    lastText (snaps.take (k + 1)) = (snaps.get ⟨k, hk⟩).text := by
  have h : snaps.take (k + 1) = snaps.take k ++ [snaps.get ⟨k, hk⟩] := by
    rw [List.take_succ, List.getElem?_eq_getElem hk]
    rfl
  unfold lastText
  rw [h, List.getLast?_concat]

/-- On a 200-status stream, `generate_stream` returns exactly the
output of the frame loop started at cursor 0. -/
theorem generate_stream_ok (gc : GlobalConfig) (sess : RuntimeEndpoint)
    (s : ProgramState) (sp : SglSamplingParams) (res : StreamResponse)
    (hdtype : sp.dtype = none) (himg : s.images_ = [])
    (hst : res.status_code = 200) :
    (generate_stream gc sess s sp res).2 = .ok (stream_loop 0 res.frames) := by
  have hbuild : build_generate_data gc s sp =
      .ok { text := .single s.text_,
            sampling_params := to_srt_kwargs sp
              { skip_special_tokens := some gc.skip_special_tokens_in_output,
                spaces_between_special_tokens :=
                  some gc.spaces_between_special_tokens_in_out },
            return_logprob := sp.return_logprob,
            logprob_start_len := sp.logprob_start_len,
            top_logprobs_num := sp.top_logprobs_num,
            return_text_in_logprobs := sp.return_text_in_logprobs } := by
    rw [build_generate_data, hdtype]
  simp [generate_stream, hbuild, add_images_nil himg, hst]

/-- C1: for a stream of data frames whose cumulative snapshots form a
prefix-extension chain S1..Sn, the frame loop of `generate_stream`
(started at cursor 0, and returned by `generate_stream` verbatim on a
200-status stream) yields one delta per frame, the concatenation of
all yielded deltas equals Sn, the final cursor equals `len(Sn)`, the
cursor always equals the total length of text emitted so far (hence is
non-decreasing), and the cursor after processing frame k equals
`len(Sk)`. -/
theorem C1_streaming_deltas (snaps : List Snapshot)
    (hchain : List.Chain' (fun a b => a.text <+: b.text) snaps) :
    ((stream_loop 0 (snaps.map Frame.data)).1.length = snaps.length) ∧
    (((stream_loop 0 (snaps.map Frame.data)).1.map Prod.fst).flatten =
      lastText snaps) ∧
    ((stream_loop 0 (snaps.map Frame.data)).2 = (lastText snaps).length) ∧
    (∀ k, (stream_loop 0 ((snaps.take k).map Frame.data)).2 =
      (((stream_loop 0 ((snaps.take k).map Frame.data)).1.map
        fun d => d.1.length).sum)) ∧
    (∀ k, (stream_loop 0 ((snaps.take k).map Frame.data)).2 ≤
      (stream_loop 0 ((snaps.take (k + 1)).map Frame.data)).2) ∧
    (∀ k (hk : k < snaps.length),
      (stream_loop 0 ((snaps.take (k + 1)).map Frame.data)).2 =
        (snaps.get ⟨k, hk⟩).text.length) ∧
    (∀ (gc : GlobalConfig) (sess : RuntimeEndpoint) (s : ProgramState)
      (sp : SglSamplingParams) (b : RespBody), sp.dtype = none →
      s.images_ = [] →
      (generate_stream gc sess s sp
          ⟨200, b, snaps.map Frame.data⟩).2 =
        .ok (stream_loop 0 (snaps.map Frame.data))) := by
  refine ⟨stream_loop_length snaps 0, ?_, ?_, ?_, ?_, ?_, ?_⟩
  · cases snaps with
    | nil => rfl
    | cons s rest =>
      have h := stream_loop_chain rest s 0 hchain (Nat.zero_le _)
      rw [h.1, List.drop_zero]
  · cases snaps with
    | nil => rfl
    | cons s rest =>
      exact (stream_loop_chain rest s 0 hchain (Nat.zero_le _)).2
  · intro k
    simpa using stream_loop_cursor ((snaps.take k).map Frame.data) 0
  · intro k
    rw [List.take_succ, stream_loop_append_data]
    exact pos_le_stream_loop _ _
  · intro k hk
    obtain ⟨s0, rest0, he⟩ : ∃ a l, snaps.take (k + 1) = a :: l := by
      cases snaps with
      | nil => simp at hk
      | cons s tl => exact ⟨s, tl.take k, rfl⟩
    have hc : List.Chain' (fun a b => a.text <+: b.text) (s0 :: rest0) := by
      rw [← he]
      exact hchain.take (k + 1)
    have h := stream_loop_chain rest0 s0 0 hc (Nat.zero_le _)
    rw [he, h.2, ← he, lastText_take snaps k hk]
  · intro gc sess s sp b hdtype himg
    exact generate_stream_ok gc sess s sp _ hdtype himg rfl

/-- C1 witness: two snapshots "ab" then "abc" yield deltas "ab" and
"c", whose concatenation is the final snapshot; the cursor ends at 3
and equals 2 after the first frame. -/
theorem C1_streaming_deltas_witness :
    ((stream_loop 0
        ([⟨['a', 'b'], ⟨0, 0, 0, [], []⟩⟩,
          ⟨['a', 'b', 'c'], ⟨0, 0, 0, [], []⟩⟩].map Frame.data)).1.length
      = 2) ∧
    (((stream_loop 0
        ([⟨['a', 'b'], ⟨0, 0, 0, [], []⟩⟩,
          ⟨['a', 'b', 'c'], ⟨0, 0, 0, [], []⟩⟩].map
            Frame.data)).1.map Prod.fst).flatten = ['a', 'b', 'c']) ∧
    ((stream_loop 0
        ([⟨['a', 'b'], ⟨0, 0, 0, [], []⟩⟩,
          ⟨['a', 'b', 'c'], ⟨0, 0, 0, [], []⟩⟩].map Frame.data)).2 = 3) ∧
    ((stream_loop 0
        (([⟨['a', 'b'], ⟨0, 0, 0, [], []⟩⟩,
           ⟨['a', 'b', 'c'], ⟨0, 0, 0, [], []⟩⟩].take 1).map
          Frame.data)).2 = 2) := by
  have h := C1_streaming_deltas
    [⟨['a', 'b'], ⟨0, 0, 0, [], []⟩⟩, ⟨['a', 'b', 'c'], ⟨0, 0, 0, [], []⟩⟩]
    (List.chain'_cons.mpr ⟨⟨['c'], rfl⟩, List.chain'_singleton _⟩)
  refine ⟨h.1, ?_, ?_, ?_⟩
  · rw [h.2.1]; rfl
  · rw [h.2.2.1]; rfl
  · rw [h.2.2.2.2.2.1 0 (by norm_num)]; rfl

end SGLangClient
